import Mathlib

/-!
Verification of the transcription watcher application (`src/main.py`).

The script glues three external libraries (the Whisper speech-to-text model,
the watchdog filesystem observer, the tkinter GUI) around a small amount of
state: a JSON file `processed_files.json` holding the set of already-processed
absolute paths, a JSON session file, the GUI widgets, and a watcher thread.

We embed that state shallowly:
* the two JSON files become `Option` fields of `AppState` (`none` = file absent);
* each `log_text.insert` call appends its line (without the trailing newline)
  to the `log` list;
* the progress label / progress bar / stop button become plain fields;
* the outcome of the external Whisper calls is a parameter of type
  `Except String String` (error message, or transcribed text);
* writing a transcript file is recorded in the `transcripts` list, and each
  call of `model.transcribe` is recorded in `modelCalls`;
* the watchdog observer becomes `ObserverState` with the documented
  stop/join semantics (a stopped observer dispatches no events);
* the Python path helpers (`os.path.abspath`, `dirname`, `basename`,
  `os.path.join`, `str.lower`, `str.endswith`, `rsplit('.', 1)[0]`) are modelled
  on the character lists underlying `String`, for POSIX paths without repeated
  or trailing slashes (the only shapes the program produces).
-/

namespace Transcription

/-- Models `str.lower` (per-character lowercasing, as Python does for ASCII). -/
def strLower (s : String) : String := ⟨s.data.map Char.toLower⟩

/-- Models `os.path.abspath` with a fixed current working directory `/cwd`:
an input that already starts with `/` is returned unchanged, a relative input
is joined onto the working directory. -/
def abspath (p : String) : String :=
  if p.data.head? = some '/' then p else ⟨"/cwd/".data ++ p.data⟩

/-- Models `os.path.join a b` for a non-absolute second component. -/
def joinPath (a b : String) : String := ⟨a.data ++ '/' :: b.data⟩

/-- Models `os.path.basename`: the part after the last `/`. -/
def basename (p : String) : String :=
  ⟨(p.data.reverse.takeWhile (fun c => c ≠ '/')).reverse⟩

/-- Models `os.path.dirname` for paths without repeated or trailing slashes:
the part before the last `/`. -/
def dirname (p : String) : String :=
  ⟨((p.data.reverse.dropWhile (fun c => c ≠ '/')).drop 1).reverse⟩

/-- Models `s.rsplit('.', 1)[0]`: everything before the last dot, or the whole
string when it has no dot. -/
def stripLastExt (s : String) : String :=
  if '.' ∈ s.data then ⟨((s.data.reverse.dropWhile (fun c => c ≠ '.')).drop 1).reverse⟩
  else s

/-- `SUPPORTED_FORMATS` (main.py line 12). -/
def SUPPORTED_FORMATS : List String :=
  [".mp3", ".wav", ".mp4", ".mkv", ".mov", ".flv", ".aac", ".m4a"]

/-- Models `path.lower().endswith(SUPPORTED_FORMATS)`: Python `endswith` on a
tuple succeeds when any member is a suffix. -/
def isMediaPath (p : String) : Bool :=
  SUPPORTED_FORMATS.any (fun ext => ext.data.isSuffixOf (strLower p).data)

/-- The set stored in `processed_files.json`, as Python's
`set(json.load(f))` builds it from the stored list: a duplicate-free list;
the empty set when the file does not exist (main.py lines 21-27). -/
def loadedSet : Option (List String) → List String
  | none => []
  | some l => l.dedup

/-- Python `set.add`: membership-respecting insertion. -/
def setAdd (s : List String) (x : String) : List String :=
  if x ∈ s then s else s ++ [x]

/-- The session record stored in `session.json`. -/
structure Session where
  directory : Option String
  processed_files : List String
deriving DecidableEq

/-- The program state visible to the claims. -/
structure AppState where
  /-- Content of `processed_files.json` (`none` = absent), as the stored list. -/
  processedLog : Option (List String)
  /-- Content of `session.json` (`none` = absent). -/
  sessionFile : Option Session
  /-- Transcript files written: (path, content) pairs, in order. -/
  transcripts : List (String × String)
  /-- Absolute paths passed to `model.transcribe`, in order. -/
  modelCalls : List String
  /-- Lines inserted into the log text widget, in order. -/
  log : List String
  /-- Text of the progress label. -/
  progressText : String
  /-- Foreground colour of the progress label. -/
  progressColor : String
  /-- Whether the indeterminate progress bar is running. -/
  barRunning : Bool
  /-- Whether the Stop Monitoring button is enabled. -/
  stopButtonEnabled : Bool
  /-- Whether `root.destroy` has been scheduled (`terminate_application`). -/
  appDestroyed : Bool
deriving DecidableEq

/-- A blank state: no JSON files on disk, empty log, idle UI. -/
def initState : AppState :=
  { processedLog := none, sessionFile := none, transcripts := [], modelCalls := []
    log := [], progressText := "Ready", progressColor := "white", barRunning := false
    stopButtonEnabled := false, appDestroyed := false }

/-- `load_processed_files` (main.py lines 21-27): parse the JSON list into a
set; the empty set when the file is absent. -/
def load_processed_files (s : AppState) : List String := loadedSet s.processedLog

/-- The raw list recorded in `processed_files.json` (empty when absent). -/
def recordedPaths (s : AppState) : List String := s.processedLog.getD []

/-- `save_processed_file` (main.py lines 29-35): load the set, add the
absolute path, dump the set back as a list. -/
def save_processed_file (file_path : String) (s : AppState) : AppState :=
  let processed_files := load_processed_files s
  { s with processedLog := some (setAdd processed_files (abspath file_path)) }

/-- `load_session` (main.py lines 37-42): the stored session, or the default
when `session.json` is absent. -/
def load_session (s : AppState) : Session :=
  match s.sessionFile with
  | some sess => sess
  | none => { directory := none, processed_files := [] }

/-- `save_session` (main.py lines 44-47). -/
def save_session (directory : String) (processed_files : List String)
    (s : AppState) : AppState :=
  { s with sessionFile := some ({ directory := some directory, processed_files := processed_files }) }

/-- The content written to a transcript file (main.py lines 78-82). -/
def transcriptContent (file_path text : String) : String :=
  "File Name: " ++ basename file_path ++ "\n" ++
  "File Path: " ++ file_path ++ "\n\n" ++
  "Transcription:\n" ++ text

/-- `transcribe_audio` (main.py lines 49-94). `whisperResult` is the outcome
of the external `whisper.load_model` / `model.transcribe` calls:
`Except.error e` when they raise exception `e`, `Except.ok text` when
transcription succeeds. Every branch ends with the `finally` block
(label `Ready`, white, bar stopped); the `except` branch logs the error. -/
def transcribe_audio (whisperResult : Except String String) (fp0 : String)
    (s : AppState) : AppState :=
  let file_path := abspath fp0
  if file_path ∈ load_processed_files s then
    { s with log := s.log ++ ["Skipped (already processed): " ++ basename file_path]
             progressText := "Ready", progressColor := "white", barRunning := false }
  else
    let s1 := { s with progressText := "Processing: " ++ basename file_path
                       progressColor := "white", barRunning := true }
    match whisperResult with
    | Except.error e =>
      { s1 with log := s1.log ++ ["Error processing " ++ basename file_path ++ ": " ++ e]
                progressText := "Ready", progressColor := "white", barRunning := false }
    | Except.ok text =>
      let s2 := { s1 with modelCalls := s1.modelCalls ++ [file_path] }
      let media_directory := dirname file_path
      let transcriptions_folder := joinPath media_directory "Transcriptions"
      let transcript_filename := stripLastExt (basename file_path) ++ "_transcription.txt"
      let transcript_path := joinPath transcriptions_folder transcript_filename
      let s3 := { s2 with transcripts :=
                    s2.transcripts ++ [(transcript_path, transcriptContent file_path text)] }
      let s4 := save_processed_file file_path s3
      let s5 := { s4 with log := s4.log ++ ["Transcribed: " ++ basename file_path] }
      { s5 with progressText := "Ready", progressColor := "white", barRunning := false }

/-- A watchdog filesystem event. -/
structure FsEvent where
  is_directory : Bool
  src_path : String
deriving DecidableEq

/-- `MediaFileHandler.on_created` (main.py lines 103-105): the source paths
for which a transcription worker thread is spawned by this event (at most
one). -/
def on_created (e : FsEvent) : List String :=
  if !e.is_directory && isMediaPath e.src_path then [e.src_path] else []

/-- The watchdog observer thread, modelled from the library's documented
semantics: `running` is set by `start`/`stop`, `threadAlive` is cleared once
the thread has terminated (which `join` waits for). -/
structure ObserverState where
  running : Bool
  threadAlive : Bool
deriving DecidableEq

/-- `start_observer` (main.py lines 107-113): a freshly started observer. -/
def start_observer : ObserverState := { running := true, threadAlive := true }

/-- `observer.stop()`: tells the watcher thread to stop dispatching. -/
def observerStop (o : ObserverState) : ObserverState := { o with running := false }

/-- `observer.join()`: waits until the watcher thread has terminated. -/
def observerJoin (o : ObserverState) : ObserverState := { o with threadAlive := false }

/-- Event dispatch: a running observer forwards a filesystem event to
`on_created`; a stopped one dispatches nothing. Returns the spawned worker
paths. -/
def observerDispatch (o : ObserverState) (e : FsEvent) : List String :=
  if o.running then on_created e else []

/-- `stop_observer` (main.py lines 153-159): stop and join the observer, log,
update the label, disable the Stop Monitoring button. It never touches
`appDestroyed`. -/
def stop_observer (o : ObserverState) (s : AppState) : ObserverState × AppState :=
  let o1 := observerStop o
  let o2 := observerJoin o1
  (o2,
   { s with log := s.log ++ ["Monitoring stopped."]
            progressText := "Monitoring Stopped", progressColor := "red"
            stopButtonEnabled := false })

/-- `terminate_application` (main.py lines 161-164). -/
def terminate_application (s : AppState) : AppState :=
  { s with log := s.log ++ ["Application is terminating..."], appDestroyed := true }

/-- The list comprehension of main.py line 126: `walkEntries` are the
(root, fileName) pairs that `os.walk` yields for non-directory entries; keep
those whose name, lowercased, ends in a supported format, and take the
absolute path of root joined with the name. -/
def scanFiles (walkEntries : List (String × String)) : List String :=
  (walkEntries.filter (fun en => isMediaPath en.2)).map
    (fun en => abspath (joinPath en.1 en.2))

/-- `select_directory` (main.py lines 115-151). `dirChoice` is the result of
`filedialog.askdirectory` (`none` = cancelled), `walkEntries` the `os.walk`
output as in `scanFiles`. Returns the new state, the list of file paths for
which a transcription worker thread was spawned, and the started observer
(when a directory was chosen). -/
def select_directory (dirChoice : Option String)
    (walkEntries : List (String × String)) (s : AppState) :
    AppState × List String × Option ObserverState :=
  match dirChoice with
  | none => (s, [], none)
  | some directory =>
    let sA := { s with log := s.log ++ ["Scanning directory: " ++ directory]
                       progressText := "Scanning files...", progressColor := "yellow" }
    let processed_files := load_processed_files sA
    let files := scanFiles walkEntries
    let p :=
      if files.isEmpty then
        ({ sA with log := sA.log ++ ["No media files found in the selected directory."]
                   progressText := "Ready", progressColor := "green" },
         ([] : List String))
      else
        let spawned := files.filter (fun f => !(processed_files.contains f))
        if spawned.isEmpty then
          ({ sA with log := sA.log ++ ["No new files found to transcribe."]
                     progressText := "Ready", progressColor := "green" },
           ([] : List String))
        else (sA, spawned)
    let sB := save_session directory processed_files p.1
    let sC := { sB with stopButtonEnabled := true }
    (sC, p.2, some start_observer)

/-- The two operations that touch `processed_files.json`, for reasoning about
arbitrary interleavings of program activity between a save and a later
transcription attempt. -/
inductive Op where
  | save : String → Op
  | transcribe : Except String String → String → Op

def applyOp (s : AppState) (op : Op) : AppState :=
  match op with
  | Op.save p => save_processed_file p s
  | Op.transcribe r p => transcribe_audio r p s

def applyOps (s : AppState) (ops : List Op) : AppState := ops.foldl applyOp s

/-- One in-flight `save_processed_file` call, split at its two lock-protected
file accesses (main.py lines 29-35): before the locked read, after the locked
read (holding the loaded set `v` in a local variable, outside the lock), and
after the locked write. -/
inductive SaveThread where
  | notStarted : SaveThread
  | loadedVal : List String → SaveThread
  | done : SaveThread
deriving DecidableEq

/-- Two concurrent `save_processed_file` calls sharing `processed_files.json`. -/
structure ConcState where
  file : Option (List String)
  t1 : SaveThread
  t2 : SaveThread
deriving DecidableEq

/-- One atomic step of a save thread: the locked read, or the locked write of
the set it loaded earlier with its path added. Each single file access is
atomic (it holds `file_lock`), but the read-modify-write pair is two separate
critical sections. -/
def threadStep (p : String) (t : SaveThread) (file : Option (List String)) :
    SaveThread × Option (List String) :=
  match t with
  | SaveThread.notStarted => (SaveThread.loadedVal (loadedSet file), file)
  | SaveThread.loadedVal v => (SaveThread.done, some (setAdd v (abspath p)))
  | SaveThread.done => (SaveThread.done, file)

/-- Run one scheduled step: `true` steps thread 1 (saving `p1`), `false`
steps thread 2 (saving `p2`). -/
def schedStep (p1 p2 : String) (c : ConcState) (who : Bool) : ConcState :=
  if who then
    let r := threadStep p1 c.t1 c.file
    { c with t1 := r.1, file := r.2 }
  else
    let r := threadStep p2 c.t2 c.file
    { c with t2 := r.1, file := r.2 }

/-- Run a whole schedule of interleaved steps. -/
def runSched (p1 p2 : String) (c : ConcState) (sched : List Bool) : ConcState :=
  sched.foldl (schedStep p1 p2) c

/-- A state whose ledger already records `/d/a.mp3` (used to instantiate
theorems with hypotheses at concrete inputs). -/
def procState : AppState := { initState with processedLog := some ["/d/a.mp3"] }

/-- The media-file condition exactly as the spec phrases it: the name,
lowercased, ends with one of the eight extensions `.mp3`, `.wav`, `.mp4`,
`.mkv`, `.mov`, `.flv`, `.aac`, `.m4a`. Stated independently of
`SUPPORTED_FORMATS` so that proving it equivalent to `isMediaPath` checks
the code against the spec's enumeration. -/
def mediaSpecProp (p : String) : Prop :=
  ".mp3".data <:+ (strLower p).data ∨ ".wav".data <:+ (strLower p).data ∨
  ".mp4".data <:+ (strLower p).data ∨ ".mkv".data <:+ (strLower p).data ∨
  ".mov".data <:+ (strLower p).data ∨ ".flv".data <:+ (strLower p).data ∨
  ".aac".data <:+ (strLower p).data ∨ ".m4a".data <:+ (strLower p).data

/-! ## Helper lemmas -/

theorem mem_setAdd_self (s : List String) (x : String) : x ∈ setAdd s x := by
  unfold setAdd
  by_cases h : x ∈ s
  · rw [if_pos h]; exact h
  · rw [if_neg h]; simp

theorem mem_setAdd_of_mem {s : List String} {y : String} (x : String) (h : y ∈ s) :
    y ∈ setAdd s x := by
  unfold setAdd
  by_cases hx : x ∈ s <;> simp [hx, h]

theorem mem_setAdd_iff {s : List String} {x y : String} :
    y ∈ setAdd s x ↔ y ∈ s ∨ y = x := by
  unfold setAdd
  by_cases hx : x ∈ s
  · simp only [hx, if_pos]
    constructor
    · exact Or.inl
    · rintro (h | rfl)
      · exact h
      · exact hx
  · simp [hx]

theorem nodup_setAdd {s : List String} (x : String) (h : s.Nodup) :
    (setAdd s x).Nodup := by
  unfold setAdd
  by_cases hx : x ∈ s
  · simpa [hx]
  · simp [hx, List.nodup_append, h]

theorem nodup_loadedSet (f : Option (List String)) : (loadedSet f).Nodup := by
  cases f with
  | none => simp [loadedSet]
  | some l => simpa [loadedSet] using l.nodup_dedup

theorem mem_loadedSet_some {l : List String} {x : String} :
    x ∈ loadedSet (some l) ↔ x ∈ l := by
  simp [loadedSet]

/-- The ledger set right after a save: the old set with the absolute path
added, then deduplicated by the JSON round trip. -/
theorem load_processed_files_save (p : String) (s : AppState) :
    load_processed_files (save_processed_file p s) =
      (setAdd (load_processed_files s) (abspath p)).dedup := rfl

theorem mem_load_save_self (p : String) (s : AppState) :
    abspath p ∈ load_processed_files (save_processed_file p s) := by
  rw [load_processed_files_save, List.mem_dedup]
  exact mem_setAdd_self _ _

theorem mem_load_save_of_mem {q : String} (p : String) {s : AppState}
    (h : q ∈ load_processed_files s) :
    q ∈ load_processed_files (save_processed_file p s) := by
  rw [load_processed_files_save, List.mem_dedup]
  exact mem_setAdd_of_mem _ h

/-- `transcribe_audio` never removes a path from the ledger. -/
theorem mem_load_transcribe_of_mem {q : String} (r : Except String String)
    (p : String) {s : AppState} (h : q ∈ load_processed_files s) :
    q ∈ load_processed_files (transcribe_audio r p s) := by
  unfold transcribe_audio
  by_cases hm : abspath p ∈ load_processed_files s
  · rw [if_pos hm]; exact h
  · rw [if_neg hm]
    cases r with
    | error e => exact h
    | ok text => exact mem_load_save_of_mem (abspath p) h

/-- Any single program operation preserves membership in the ledger. -/
theorem mem_load_applyOp_of_mem {q : String} (op : Op) {s : AppState}
    (h : q ∈ load_processed_files s) :
    q ∈ load_processed_files (applyOp s op) := by
  cases op with
  | save p => exact mem_load_save_of_mem p h
  | transcribe r p => exact mem_load_transcribe_of_mem r p h

/-- Any sequence of program operations preserves membership in the ledger. -/
theorem mem_load_applyOps_of_mem {q : String} (ops : List Op) {s : AppState}
    (h : q ∈ load_processed_files s) :
    q ∈ load_processed_files (applyOps s ops) := by
  induction ops generalizing s with
  | nil => simpa [applyOps]
  | cons op rest ih =>
    have h1 := mem_load_applyOp_of_mem op h
    simpa [applyOps, List.foldl_cons] using ih h1

theorem mem_load_iff_mem_recorded (q : String) (s : AppState) :
    q ∈ load_processed_files s ↔ q ∈ recordedPaths s := by
  cases hpl : s.processedLog with
  | none => simp [load_processed_files, recordedPaths, hpl, loadedSet]
  | some l => simp [load_processed_files, recordedPaths, hpl, loadedSet]

theorem isMediaPath_iff (p : String) : isMediaPath p = true ↔ mediaSpecProp p := by
  simp [isMediaPath, SUPPORTED_FORMATS, mediaSpecProp, List.isSuffixOf_iff_suffix]

theorem count_filter_eq (l : List String) (q : String → Bool) (f : String) :
    (l.filter q).count f = if q f then l.count f else 0 := by
  by_cases h : q f
  · rw [if_pos h]
    exact List.count_filter h
  · rw [if_neg h]
    rw [List.count_eq_zero]
    intro hm
    rw [List.mem_filter] at hm
    rw [hm.2] at h
    exact h rfl

/-- The workers spawned by `select_directory`: exactly the scanned media
files whose absolute path is not in the loaded processed set, in scan
order. -/
theorem select_directory_spawned (d : String) (entries : List (String × String))
    (s : AppState) :
    (select_directory (some d) entries s).2.1 =
      (scanFiles entries).filter (fun f => !((load_processed_files s).contains f)) := by
  unfold select_directory
  dsimp only [load_processed_files]
  by_cases hfe : (scanFiles entries).isEmpty
  · rw [if_pos hfe]
    rw [List.isEmpty_iff] at hfe
    rw [hfe]
    rfl
  · rw [if_neg hfe]
    by_cases hsp : ((scanFiles entries).filter
        (fun f => !((loadedSet s.processedLog).contains f))).isEmpty
    · rw [if_pos hsp]
      rw [List.isEmpty_iff] at hsp
      exact hsp.symm
    · rw [if_neg hsp]

/-- The log written by `select_directory` when the scan finds no media
files. -/
theorem select_directory_log_no_media (d : String)
    (entries : List (String × String)) (s : AppState)
    (h : scanFiles entries = []) :
    (select_directory (some d) entries s).1.log =
      s.log ++ ["Scanning directory: " ++ d,
                "No media files found in the selected directory."] := by
  unfold select_directory
  dsimp only [load_processed_files]
  have hfe : (scanFiles entries).isEmpty = true := by rw [List.isEmpty_iff]; exact h
  rw [if_pos hfe]
  simp [save_session]

/-- The log written by `select_directory` when media files were scanned but
every one of them is already in the processed set. -/
theorem select_directory_log_all_processed (d : String)
    (entries : List (String × String)) (s : AppState)
    (h1 : scanFiles entries ≠ [])
    (h2 : ∀ f ∈ scanFiles entries, f ∈ load_processed_files s) :
    (select_directory (some d) entries s).1.log =
      s.log ++ ["Scanning directory: " ++ d,
                "No new files found to transcribe."] := by
  have hsp : ((scanFiles entries).filter
      (fun f => !((loadedSet s.processedLog).contains f))).isEmpty = true := by
    rw [List.isEmpty_iff, List.filter_eq_nil_iff]
    intro a ha
    simp
    exact h2 a ha
  have hfe : ¬ (scanFiles entries).isEmpty = true := by
    rw [List.isEmpty_iff]; exact h1
  unfold select_directory
  dsimp only [load_processed_files]
  rw [if_neg hfe, if_pos hsp]
  simp [save_session]

/-! ## Claim theorems -/

/-- Claim C1: once `save_processed_file p` has completed, any later
`transcribe_audio` call on a path with the same absolute path — after any
number of intervening program operations, which models a restart as well since
the ledger is the persisted file — skips the file: the whole resulting state
equals the prior state except that the skip message is appended to the log and
the `finally` block resets the progress UI. In particular the ledger, the
transcript files and the model calls are untouched. -/
theorem C1_saved_path_is_skipped (p pq : String) (hq : abspath pq = abspath p)
    (s : AppState) (ops : List Op) (res : Except String String) :
    transcribe_audio res pq (applyOps (save_processed_file p s) ops) =
      { applyOps (save_processed_file p s) ops with
          log := (applyOps (save_processed_file p s) ops).log ++
                 ["Skipped (already processed): " ++ basename (abspath pq)]
          progressText := "Ready", progressColor := "white", barRunning := false } := by
  have hmem : abspath pq ∈ load_processed_files (applyOps (save_processed_file p s) ops) := by
    rw [hq]
    exact mem_load_applyOps_of_mem ops (mem_load_save_self p s)
  unfold transcribe_audio
  rw [if_pos hmem]

/-- Witness for C1 at a concrete input: `a.mp3` saved into a blank state is
skipped by an immediately following transcription attempt. -/
theorem C1_saved_path_is_skipped_witness :
    abspath "a.mp3" = abspath "a.mp3" ∧
    transcribe_audio (Except.ok "t") "a.mp3" (applyOps (save_processed_file "a.mp3" initState) []) =
      { applyOps (save_processed_file "a.mp3" initState) [] with
          log := (applyOps (save_processed_file "a.mp3" initState) []).log ++
                 ["Skipped (already processed): " ++ basename (abspath "a.mp3")]
          progressText := "Ready", progressColor := "white", barRunning := false } :=
  ⟨rfl, C1_saved_path_is_skipped "a.mp3" "a.mp3" rfl initState [] (Except.ok "t")⟩

/-- Claim C2 as stated is false: the transcript of `/music/song.mp3` is
written to `/music/Transcriptions/song_transcription.txt`, whose directory is
not the directory containing the media file. -/
theorem C2_transcript_not_in_same_directory :
    (transcribe_audio (Except.ok "hello") "/music/song.mp3" initState).transcripts =
      [("/music/Transcriptions/song_transcription.txt",
        transcriptContent "/music/song.mp3" "hello")] ∧
    dirname "/music/Transcriptions/song_transcription.txt" ≠ dirname "/music/song.mp3" := by
  constructor
  · rfl
  · decide

/-- Claim C2 (amended): a successful transcription writes exactly one new
transcript file, placed in the `Transcriptions` subfolder of the directory
containing the media file, named after the media file's basename without its
last extension followed by `_transcription.txt`. -/
theorem C2_amended_transcript_in_subfolder (p text : String) (s : AppState)
    (h : abspath p ∉ load_processed_files s) :
    (transcribe_audio (Except.ok text) p s).transcripts =
      s.transcripts ++
        [(joinPath (joinPath (dirname (abspath p)) "Transcriptions")
            (stripLastExt (basename (abspath p)) ++ "_transcription.txt"),
          transcriptContent (abspath p) text)] := by
  unfold transcribe_audio
  rw [if_neg h]
  rfl

/-- Witness for the amended C2 at a concrete input. -/
theorem C2_amended_transcript_in_subfolder_witness :
    abspath "/music/song.mp3" ∉ load_processed_files initState ∧
    (transcribe_audio (Except.ok "hello") "/music/song.mp3" initState).transcripts =
      initState.transcripts ++
        [(joinPath (joinPath (dirname (abspath "/music/song.mp3")) "Transcriptions")
            (stripLastExt (basename (abspath "/music/song.mp3")) ++ "_transcription.txt"),
          transcriptContent (abspath "/music/song.mp3") "hello")] :=
  ⟨by decide,
   C2_amended_transcript_in_subfolder "/music/song.mp3" "hello" initState (by decide)⟩

/-- Claim C3: immediately after `save_processed_file p`, `load_processed_files`
returns a set containing the absolute path of `p`, whatever the prior ledger
state was. -/
theorem C3_save_load_roundtrip (p : String) (s : AppState) :
    abspath p ∈ load_processed_files (save_processed_file p s) :=
  mem_load_save_self p s

/-- Claim C4 as stated is false: two concurrent `save_processed_file` calls
can lose a recorded path. Starting from an absent ledger file, the schedule
read1, read2, write1, write2 — each single file access atomic under
`file_lock` — completes both saves, yet `/a` is missing from the final
ledger because both calls read before either wrote. -/
theorem C4_concurrent_saves_lose_update :
    (runSched "/a" "/b"
        ({ file := none, t1 := SaveThread.notStarted, t2 := SaveThread.notStarted })
        [true, false, true, false]).t1 = SaveThread.done ∧
    (runSched "/a" "/b"
        ({ file := none, t1 := SaveThread.notStarted, t2 := SaveThread.notStarted })
        [true, false, true, false]).t2 = SaveThread.done ∧
    "/a" ∉ loadedSet (runSched "/a" "/b"
        ({ file := none, t1 := SaveThread.notStarted, t2 := SaveThread.notStarted })
        [true, false, true, false]).file ∧
    "/b" ∈ loadedSet (runSched "/a" "/b"
        ({ file := none, t1 := SaveThread.notStarted, t2 := SaveThread.notStarted })
        [true, false, true, false]).file := by
  decide

/-- Claim C4 (amended): each single read or write of `processed_files.json`
is atomic under `file_lock`, but `save_processed_file` performs its read and
its write in two separate critical sections, so an overlapping pair of saves
may lose a path; when the two saves are serialized — one completes its write
before the other reads — both absolute paths are recorded afterwards,
whatever the initial ledger content. -/
theorem C4_amended_serialized_saves_keep_both (f0 : Option (List String))
    (p1 p2 : String) :
    (runSched p1 p2
        ({ file := f0, t1 := SaveThread.notStarted, t2 := SaveThread.notStarted })
        [true, true, false, false]).t1 = SaveThread.done ∧
    (runSched p1 p2
        ({ file := f0, t1 := SaveThread.notStarted, t2 := SaveThread.notStarted })
        [true, true, false, false]).t2 = SaveThread.done ∧
    abspath p1 ∈ loadedSet (runSched p1 p2
        ({ file := f0, t1 := SaveThread.notStarted, t2 := SaveThread.notStarted })
        [true, true, false, false]).file ∧
    abspath p2 ∈ loadedSet (runSched p1 p2
        ({ file := f0, t1 := SaveThread.notStarted, t2 := SaveThread.notStarted })
        [true, true, false, false]).file := by
  refine ⟨rfl, rfl, ?_, ?_⟩
  · show abspath p1 ∈ loadedSet (some (setAdd ((setAdd (loadedSet f0) (abspath p1)).dedup) (abspath p2)))
    rw [mem_loadedSet_some]
    exact mem_setAdd_of_mem _ (List.mem_dedup.mpr (mem_setAdd_self _ _))
  · show abspath p2 ∈ loadedSet (some (setAdd ((setAdd (loadedSet f0) (abspath p1)).dedup) (abspath p2)))
    rw [mem_loadedSet_some]
    exact mem_setAdd_self _ _

/-- Claim C6: `transcribe_audio` is total on every input (its embedding
returns a plain state, reflecting that the `try`/`except Exception` block
catches everything the external calls raise); on every exit path the
`finally` block leaves the progress label at `Ready` with the bar stopped;
and when the external Whisper calls raise `e` on a not-yet-processed file,
the resulting state equals the prior state with exactly the error line
appended — so the ledger, the transcripts and the session are untouched. -/
theorem C6_no_exception_propagation (res : Except String String) (p : String)
    (s : AppState) :
    (transcribe_audio res p s).progressText = "Ready" ∧
    (transcribe_audio res p s).barRunning = false ∧
    (∀ e, res = Except.error e → abspath p ∉ load_processed_files s →
      transcribe_audio res p s =
        { s with log := s.log ++ ["Error processing " ++ basename (abspath p) ++ ": " ++ e]
                 progressText := "Ready", progressColor := "white", barRunning := false }) := by
  refine ⟨?_, ?_, ?_⟩
  · unfold transcribe_audio
    by_cases hm : abspath p ∈ load_processed_files s
    · rw [if_pos hm]
    · rw [if_neg hm]
      cases res with
      | error e => rfl
      | ok text => rfl
  · unfold transcribe_audio
    by_cases hm : abspath p ∈ load_processed_files s
    · rw [if_pos hm]
    · rw [if_neg hm]
      cases res with
      | error e => rfl
      | ok text => rfl
  · rintro e rfl hm
    unfold transcribe_audio
    rw [if_neg hm]

/-- Witness for C6 at a concrete input: a model error on a fresh file is
logged and leaves the ledger absent. -/
theorem C6_no_exception_propagation_witness :
    abspath "x.mp3" ∉ load_processed_files initState ∧
    (transcribe_audio (Except.error "boom") "x.mp3" initState).progressText = "Ready" ∧
    (transcribe_audio (Except.error "boom") "x.mp3" initState).barRunning = false ∧
    transcribe_audio (Except.error "boom") "x.mp3" initState =
      { initState with
          log := initState.log ++
                 ["Error processing " ++ basename (abspath "x.mp3") ++ ": " ++ "boom"]
          progressText := "Ready", progressColor := "white", barRunning := false } := by
  have h := C6_no_exception_propagation (Except.error "boom") "x.mp3" initState
  exact ⟨by decide, h.1, h.2.1, h.2.2 "boom" rfl (by decide)⟩

/-- Claim C7: when monitoring is running, `stop_observer` stops the watcher
thread (`observer.stop()`) and waits for it to terminate (`observer.join()`),
logs `Monitoring stopped.`, disables the Stop Monitoring button, leaves the
application-termination flag untouched, and afterwards no filesystem event
dispatches to `on_created`, so no event spawns a transcription worker until a
new observer is started. -/
theorem C7_stop_observer_cancels_watch (o : ObserverState) (s : AppState)
    (_h : o.running = true) :
    (stop_observer o s).1.running = false ∧
    (stop_observer o s).1.threadAlive = false ∧
    (stop_observer o s).2.log = s.log ++ ["Monitoring stopped."] ∧
    (stop_observer o s).2.stopButtonEnabled = false ∧
    (stop_observer o s).2.appDestroyed = s.appDestroyed ∧
    (∀ e : FsEvent, observerDispatch (stop_observer o s).1 e = []) := by
  refine ⟨rfl, rfl, rfl, rfl, rfl, ?_⟩
  intro e
  simp [stop_observer, observerStop, observerJoin, observerDispatch]

/-- Witness for C7: stopping a freshly started observer. -/
theorem C7_stop_observer_cancels_watch_witness :
    start_observer.running = true ∧
    (stop_observer start_observer initState).1.running = false ∧
    (stop_observer start_observer initState).1.threadAlive = false ∧
    (stop_observer start_observer initState).2.log =
      initState.log ++ ["Monitoring stopped."] ∧
    (stop_observer start_observer initState).2.stopButtonEnabled = false ∧
    (stop_observer start_observer initState).2.appDestroyed = initState.appDestroyed ∧
    (∀ e : FsEvent, observerDispatch (stop_observer start_observer initState).1 e = []) := by
  have h := C7_stop_observer_cancels_watch start_observer initState rfl
  exact ⟨rfl, h.1, h.2.1, h.2.2.1, h.2.2.2.1, h.2.2.2.2.1, h.2.2.2.2.2⟩

/-- Claim C5 as stated is false on the empty-scan boundary case: when the
recursive scan of the chosen directory finds no media files, every scanned
file is (vacuously) already processed and no worker is spawned, but the
program logs `No media files found in the selected directory.` instead of
the `No new files found to transcribe.` message the claim requires. -/
theorem C5_empty_scan_logs_no_media_message :
    scanFiles ([] : List (String × String)) = [] ∧
    (select_directory (some "/d") [] initState).2.1 = [] ∧
    (select_directory (some "/d") [] initState).1.log =
      ["Scanning directory: /d", "No media files found in the selected directory."] ∧
    "No new files found to transcribe." ∉ (select_directory (some "/d") [] initState).1.log := by
  decide

/-- Claim C5 (amended): `select_directory` spawns exactly one worker per
scanned media file whose absolute path is not in the loaded processed set
and none for a file whose absolute path is in that set; if at least one
media file is scanned and every scanned file is already processed, it spawns
no worker and logs `No new files found to transcribe.`; if the scan finds no
media files it spawns no worker and logs
`No media files found in the selected directory.` instead. -/
theorem C5_spawn_exactly_new_files (d : String)
    (entries : List (String × String)) (s : AppState) :
    (∀ f : String,
       (select_directory (some d) entries s).2.1.count f =
         if (load_processed_files s).contains f then 0
         else (scanFiles entries).count f) ∧
    (scanFiles entries ≠ [] →
     (∀ f ∈ scanFiles entries, f ∈ load_processed_files s) →
       (select_directory (some d) entries s).2.1 = [] ∧
       (select_directory (some d) entries s).1.log =
         s.log ++ ["Scanning directory: " ++ d,
                   "No new files found to transcribe."]) ∧
    (scanFiles entries = [] →
       (select_directory (some d) entries s).2.1 = [] ∧
       (select_directory (some d) entries s).1.log =
         s.log ++ ["Scanning directory: " ++ d,
                   "No media files found in the selected directory."]) := by
  refine ⟨?_, ?_, ?_⟩
  · intro f
    rw [select_directory_spawned, count_filter_eq]
    by_cases hc : (load_processed_files s).contains f = true
    · rw [if_pos hc, hc]
      simp
    · rw [if_neg hc]
      rw [Bool.not_eq_true] at hc
      rw [hc]
      simp
  · intro h1 h2
    refine ⟨?_, select_directory_log_all_processed d entries s h1 h2⟩
    rw [select_directory_spawned, List.filter_eq_nil_iff]
    intro a ha
    simp
    exact h2 a ha
  · intro h
    refine ⟨?_, select_directory_log_no_media d entries s h⟩
    rw [select_directory_spawned, h]
    rfl

/-- Witness for the amended C5 at a concrete input: a single already
processed media file makes the scan spawn nothing and log the
no-new-files message. -/
theorem C5_spawn_exactly_new_files_witness :
    scanFiles [("/d", "a.mp3")] ≠ [] ∧
    (∀ f ∈ scanFiles [("/d", "a.mp3")], f ∈ load_processed_files procState) ∧
    ((select_directory (some "/d") [("/d", "a.mp3")] procState).2.1 = [] ∧
     (select_directory (some "/d") [("/d", "a.mp3")] procState).1.log =
       procState.log ++ ["Scanning directory: " ++ "/d",
                         "No new files found to transcribe."]) :=
  ⟨by decide, by decide,
   (C5_spawn_exactly_new_files "/d" [("/d", "a.mp3")] procState).2.1
     (by decide) (by decide)⟩

/-- Claim C8: `save_processed_file p` only adds the absolute path of `p` to
the ledger: every previously recorded path is still recorded, any recorded
path afterwards was recorded before or is `abspath p`, and the list written
back holds no duplicates. -/
theorem C8_save_frame_effect (p : String) (s : AppState) :
    (∀ q ∈ recordedPaths s, q ∈ recordedPaths (save_processed_file p s)) ∧
    (∀ q ∈ recordedPaths (save_processed_file p s),
       q ∈ recordedPaths s ∨ q = abspath p) ∧
    (recordedPaths (save_processed_file p s)).Nodup := by
  have hrec : recordedPaths (save_processed_file p s) =
      setAdd (load_processed_files s) (abspath p) := rfl
  refine ⟨?_, ?_, ?_⟩
  · intro q hq
    rw [hrec]
    exact mem_setAdd_of_mem _ ((mem_load_iff_mem_recorded q s).mpr hq)
  · intro q hq
    rw [hrec] at hq
    rcases mem_setAdd_iff.mp hq with h | h
    · exact Or.inl ((mem_load_iff_mem_recorded q s).mp h)
    · exact Or.inr h
  · rw [hrec]
    exact nodup_setAdd _ (nodup_loadedSet _)

/-- Witness for C8 at a concrete input. -/
theorem C8_save_frame_effect_witness :
    (∀ q ∈ recordedPaths procState, q ∈ recordedPaths (save_processed_file "b" procState)) ∧
    (∀ q ∈ recordedPaths (save_processed_file "b" procState),
       q ∈ recordedPaths procState ∨ q = abspath "b") ∧
    (recordedPaths (save_processed_file "b" procState)).Nodup :=
  C8_save_frame_effect "b" procState

/-- Claim C9: a file triggers transcription — via `on_created` or via the
directory scan — exactly when it is not a directory and its name, lowercased,
ends with one of the eight supported extensions; matching is
case-insensitive (a `.MP3` file is picked up) and a directory event spawns
nothing. -/
theorem C9_media_extension_filter :
    (∀ e : FsEvent, on_created e ≠ [] ↔
       (e.is_directory = false ∧ mediaSpecProp e.src_path)) ∧
    (∀ entries : List (String × String), ∀ x : String,
       x ∈ scanFiles entries ↔
         ∃ en ∈ entries, mediaSpecProp en.2 ∧ x = abspath (joinPath en.1 en.2)) ∧
    on_created ({ is_directory := false, src_path := "/a/B.MP3" }) = ["/a/B.MP3"] ∧
    on_created ({ is_directory := true, src_path := "/a/B.MP3" }) = [] := by
  refine ⟨?_, ?_, by decide, by decide⟩
  · intro e
    unfold on_created
    by_cases hd : e.is_directory
    · simp [hd]
    · by_cases hm2 : isMediaPath e.src_path
      · simp [hd, hm2, (isMediaPath_iff e.src_path).mp hm2]
      · have hnp : ¬ mediaSpecProp e.src_path :=
          fun hmp => hm2 ((isMediaPath_iff e.src_path).mpr hmp)
        simp [hd, hm2, hnp]
  · intro entries x
    simp only [scanFiles, List.mem_map, List.mem_filter]
    constructor
    · rintro ⟨en, ⟨hen, hmp⟩, rfl⟩
      exact ⟨en, hen, (isMediaPath_iff en.2).mp hmp, rfl⟩
    · rintro ⟨en, hen, hmp, rfl⟩
      exact ⟨en, ⟨hen, (isMediaPath_iff en.2).mpr hmp⟩, rfl⟩

/-- Claim C10: the loaders are total on a missing file — with
`processed_files.json` absent `load_processed_files` returns the empty set,
and with `session.json` absent `load_session` returns the default session. -/
theorem C10_loaders_total_on_missing_files (s : AppState)
    (h1 : s.processedLog = none) (h2 : s.sessionFile = none) :
    load_processed_files s = [] ∧
    load_session s = { directory := none, processed_files := [] } := by
  constructor
  · rw [load_processed_files, h1]
    rfl
  · unfold load_session
    rw [h2]

/-- Witness for C10: the blank state has neither JSON file. -/
theorem C10_loaders_total_on_missing_files_witness :
    initState.processedLog = none ∧ initState.sessionFile = none ∧
    (load_processed_files initState = [] ∧
     load_session initState = { directory := none, processed_files := [] }) :=
  ⟨rfl, rfl, C10_loaders_total_on_missing_files initState rfl rfl⟩

end Transcription
